import Mathlib

/-!
Verification of the parallel fetch-and-validate pipeline of
`parquet_read` (reader.py, lib/download.py) against its specification.

The embedding models paths as strings over explicit character lists
(mirroring `os.path.basename`, `os.path.split`, `os.path.join` for POSIX
paths), the local filesystem as an association list from path to file
size, the remote listing as a list of object paths, and the retry
orchestrator of `Connection._create_download_obj_and_download_file` as a
function producing both its outcome and the trace of construction
(re-list + re-enqueue) and transfer events it performs.  The transfer
calls' outcomes are an oracle `transferOk : Nat → Bool` giving the result
of the k-th call to `download_files_from_s3` (true = returns, false =
raises `DownloadError`), exactly following the `try`/`except` structure
of the source.  The worker pool's concurrent drain loop
(`_download_single_file`) is modelled twice: sequentially per worker, and
as an interleaving transition system over a shared queue for the
concurrency claims.
-/

/-- Split a character list on the character `/`, keeping empty components,
as `"a/b".split("/")` does. -/
def splitOnSlash : List Char → List (List Char)
  | [] => [[]]
  | c :: cs =>
    let r := splitOnSlash cs
    if c = '/' then [] :: r
    else
      match r with
      | [] => [[c]]
      | h :: t => (c :: h) :: t

/-- `os.path.basename`: the final path component (text after the last `/`). -/
def basename (p : String) : String := ⟨(splitOnSlash p.data).getLastD []⟩

/-- Rejoin components with `/` between them. -/
def joinSlash : List (List Char) → List Char
  | [] => []
  | [x] => x
  | x :: xs => x ++ '/' :: joinSlash xs

/-- `os.path.split(p)[0]` (the head of `os.path.split`): everything before
the final `/`. -/
def dirname (p : String) : String := ⟨joinSlash (splitOnSlash p.data).dropLast⟩

/-- `os.path.join(a, b)` for POSIX paths and two components. -/
def joinPath (a b : String) : String :=
  if b.data.head? = some '/' then b
  else if a.data = [] then b
  else if a.data.getLast? = some '/' then ⟨a.data ++ b.data⟩
  else ⟨a.data ++ '/' :: b.data⟩

/-- `name.startswith('_')` on a base name. -/
def startsWithUnderscore (s : String) : Bool :=
  match s.data with
  | [] => false
  | c :: _ => c = '_'

/-- The local filesystem as seen by `os.path.exists` / `os.path.getsize`:
an association list from absolute path to file size in bytes. -/
def FS := List (String × Nat)

/-- Size of the file at `p`, `Option.none` when no file exists there. -/
def fsSize (fs : FS) (p : String) : Option Nat :=
  (List.find? (fun e => decide (e.1 = p)) fs).map (fun e => e.2)

/-- `ParquetFromS3.successfully_downloaded`: walks `_files_to_download`,
returning false at the first expected file that is missing from
`destinationPath` or has size at most 1 byte, true when the walk ends. -/
def successfullyDownloaded (fs : FS) (destinationPath : String) : List String → Bool
  | [] => true
  | fileName :: rest =>
    match fsSize fs (joinPath destinationPath fileName) with
    | Option.none => false
    | Option.some size => if size ≤ 1 then false else successfullyDownloaded fs destinationPath rest

/-- `ParquetFromS3._create_list_of_files_to_download`: walks the remote
listing; every object whose base name does not start with `_` is put on
the work queue (first component, full remote path) and its base name
appended to `_files_to_download` (second component). -/
def createDownloadLists : List String → List String × List String
  | [] => ([], [])
  | fileName :: rest =>
    if startsWithUnderscore (basename fileName) then createDownloadLists rest
    else
      let r := createDownloadLists rest
      (fileName :: r.1, basename fileName :: r.2)

/-- `ParquetFromS3._set_destination_directory`: the per-batch destination
is `parent_dir` joined with the base name of the full S3 path. -/
def destinationPath (parentDir fullDownloadPath : String) : String :=
  joinPath parentDir (basename fullDownloadPath)

/-- `Connection.test_connection`: probes existence of
`s3://` + `os.path.join(bucket, os.path.split(uri)[0])` — the parent
directory of the uri, not the uri itself. -/
def testConnection (s3Exists : String → Bool) (bucket uri : String) : Bool :=
  s3Exists ("s3://" ++ joinPath bucket (dirname uri))

/-- One observable action of the retry orchestrator: `construct` is the
creation of a `ParquetFromS3` (which re-lists the prefix and re-populates
the queue), `transfer` is a call to `download_files_from_s3`. -/
inductive OrchEvent where
  | construct
  | transfer
deriving DecidableEq

/-- Outcome of `Connection._create_download_obj_and_download_file`. -/
inductive OrchOutcome where
  | ok
  | exhausted (msg : String)
  | escapedDownloadError
  | noConnection (msg : String)
deriving DecidableEq

/-- The `while total_tries != 0` loop of
`_create_download_obj_and_download_file`, with `tries` the remaining
`total_tries` and `k` the index of the next `download_files_from_s3`
call.  The `try` block constructs a fresh `ParquetFromS3` and calls the
transfer once; on `DownloadError` the `except` handler calls the transfer
again on the same object (no fresh construction) before decrementing:
a `DownloadError` from that second call is not caught and escapes. -/
def retryLoop (transferOk : Nat → Bool) (fullDownloadPath : String) :
    Nat → Nat → OrchOutcome × List OrchEvent
  | 0, _ =>
    (.exhausted ("Unable to download " ++ fullDownloadPath ++ " after attempting 3 times"), [])
  | tries + 1, k =>
    if transferOk k then
      (.ok, [.construct, .transfer])
    else if transferOk (k + 1) then
      let r := retryLoop transferOk fullDownloadPath tries (k + 2)
      (r.1, .construct :: .transfer :: .transfer :: r.2)
    else
      (.escapedDownloadError, [.construct, .transfer, .transfer])

/-- `Connection._create_download_obj_and_download_file`: guards on
`test_connection`, then runs the retry loop with `total_tries = 3`. -/
def createDownloadObjAndDownloadFile (s3Exists : String → Bool) (bucket uri : String)
    (transferOk : Nat → Bool) : OrchOutcome × List OrchEvent :=
  if testConnection s3Exists bucket uri then
    retryLoop transferOk (joinPath bucket uri) 3 0
  else
    (.noConnection ("Unable to download " ++ joinPath bucket uri ++
      " because connection to S3 is not valid"), [])

/-- Outcome of `Connection.download_and_convert_to_json` as observed by
the caller. -/
inductive CallOutcome where
  | success
  | s3Error (msg : String)
  | downloadError
deriving DecidableEq

/-- The message of the `S3ConnectionError` raised when validation fails. -/
def validationFailureMsg : String :=
  "Unable to download convert downloaded files to JSON because files " ++
  "did not successfully download all files"

/-- `Connection.download_and_convert_to_json`: run the orchestrator, then
check `successfully_downloaded` exactly once; on a false validation raise
`S3ConnectionError` (no retry).  `listing` is what `ls` returns for the
full download path and `fs` the local filesystem at validation time. -/
def downloadAndConvertToJson (s3Exists : String → Bool) (bucket uri parentDir : String)
    (transferOk : Nat → Bool) (listing : List String) (fs : FS) :
    CallOutcome × List OrchEvent :=
  match createDownloadObjAndDownloadFile s3Exists bucket uri transferOk with
  | (.ok, evs) =>
    if successfullyDownloaded fs (destinationPath parentDir (joinPath bucket uri))
        (createDownloadLists listing).2 then
      (.success, evs)
    else
      (.s3Error validationFailureMsg, evs)
  | (.exhausted m, evs) => (.s3Error m, evs)
  | (.escapedDownloadError, evs) => (.downloadError, evs)
  | (.noConnection m, evs) => (.s3Error m, evs)

/-- Result of one worker's `_download_single_file` body run sequentially
over the items it claims: the local paths written, and whether it drained
its items or aborted by raising `DownloadError`. -/
inductive WorkerRun where
  | drained (written : List String)
  | aborted (written : List String)
deriving DecidableEq

/-- `ParquetFromS3._download_single_file` run on the queue items `items`:
for each item open the remote object and write
`destinationPath/basename(item)`; `copyOk item = false` stands for a
`NewConnectionError` during that copy, on which the `try` around the
whole drain loop stops the worker and re-raises as `DownloadError`
(`aborted`).  Items after the failing one are never processed. -/
def downloadSingleFile (copyOk : String → Bool) (destPath : String) :
    List String → WorkerRun
  | [] => .drained []
  | path :: rest =>
    if copyOk path then
      match downloadSingleFile copyOk destPath rest with
      | .drained w => .drained (joinPath destPath (basename path) :: w)
      | .aborted w => .aborted (joinPath destPath (basename path) :: w)
    else .aborted []

/-- Program counter of one worker executing
`while not queue.empty(): path = queue.get(); ...`:
`atCheck` is about to evaluate `queue.empty()`, `atGet` has seen the
queue non-empty and is about to call `queue.get()` (which blocks when
the queue is meanwhile empty), `finished` has observed the queue empty
and left the loop. -/
inductive WorkerPC where
  | atCheck
  | atGet
  | finished
deriving DecidableEq

/-- Shared state of `n` workers draining one `multiprocessing.Queue`:
the remaining queue contents, each worker's program counter, and the
items each worker has obtained from `queue.get()`. -/
structure PoolState (n : Nat) where
  queue : List String
  pc : Fin n → WorkerPC
  got : Fin n → List String

/-- Interleaving semantics of the drain loop: `queue.empty()` and
`queue.get()` are two separate atomic operations, as in the source.
`queue.get()` on an empty queue has no step: that worker blocks. -/
inductive PoolStep {n : Nat} : PoolState n → PoolState n → Prop
  | checkNonempty (s t : PoolState n) (i : Fin n) :
      s.pc i = .atCheck → s.queue ≠ [] →
      t.queue = s.queue → t.pc = Function.update s.pc i .atGet → t.got = s.got →
      PoolStep s t
  | checkEmpty (s t : PoolState n) (i : Fin n) :
      s.pc i = .atCheck → s.queue = [] →
      t.queue = s.queue → t.pc = Function.update s.pc i .finished → t.got = s.got →
      PoolStep s t
  | getItem (s t : PoolState n) (i : Fin n) (x : String) (rest : List String) :
      s.pc i = .atGet → s.queue = x :: rest →
      t.queue = rest → t.pc = Function.update s.pc i .atCheck →
      t.got = Function.update s.got i (s.got i ++ [x]) →
      PoolStep s t

/-- Two workers, a queue holding the single item `part-0001`, both at the
top of the loop. -/
def poolInit : PoolState 2 :=
  { queue := ["part-0001"], pc := fun _ => .atCheck, got := fun _ => [] }

/-- Worker 0 has seen the queue non-empty. -/
def poolS1 : PoolState 2 :=
  { poolInit with pc := Function.update poolInit.pc 0 .atGet }

/-- Worker 1 has also seen the queue non-empty. -/
def poolS2 : PoolState 2 :=
  { poolS1 with pc := Function.update poolS1.pc 1 .atGet }

/-- Worker 0 won the race for the last item; the queue is now empty while
worker 1 is still committed to calling `queue.get()`. -/
def poolS3 : PoolState 2 :=
  { queue := [],
    pc := Function.update poolS2.pc 0 .atCheck,
    got := Function.update poolS2.got 0 (poolS2.got 0 ++ ["part-0001"]) }

/-- Worker 0 has observed the empty queue and left the loop; worker 1 is
blocked inside `queue.get()` on the empty queue. -/
def poolStuck : PoolState 2 :=
  { poolS3 with pc := Function.update poolS3.pc 0 .finished }

/-- A Python value as far as the credential setters inspect one:
`isinstance(v, str)`, comparison with `""`, and `is None`. -/
inductive PyVal where
  | str (s : String)
  | int (n : Int)
  | pyNone
deriving DecidableEq

/-- Python `v != ""`: false only for the empty string itself. -/
def PyVal.neEmptyStr : PyVal → Bool
  | .str s => !(s = "")
  | _ => true

/-- Python `v is not None`. -/
def PyVal.isNotNone : PyVal → Bool
  | .pyNone => false
  | _ => true

/-- Python `isinstance(v, str)`. -/
def PyVal.isStr : PyVal → Bool
  | .str _ => true
  | _ => false

/-- Outcome of `Connection._set_s3_secret_key`. -/
inductive SecretResult where
  | stored (v : PyVal)
  | valueError (msg : String)
  | envAlreadySet
deriving DecidableEq

/-- `Connection._set_s3_secret_key`: when `S3_SECRET` is unset, the branch
that stores the argument into the environment is guarded by
`if not isinstance(secret_key, str)` — the inverse of the access-key
setter's guard — and the inner guard `secret_key != "" or secret_key is
not None`. -/
def setS3SecretKey (envSecret : Option String) (secretKey : PyVal) : SecretResult :=
  match envSecret with
  | Option.some _ => .envAlreadySet
  | Option.none =>
    if !secretKey.isStr then
      if secretKey.neEmptyStr || secretKey.isNotNone then .stored secretKey
      else .valueError "Unable to assign"
    else .valueError "Unable to set S3 secret_key value because value is not a string"

/-- Outcome of `Connection._set_uri_path`. -/
inductive UriResult where
  | assigned (s : String)
  | uriValueError (msg : String)
deriving DecidableEq

/-- `Connection._set_uri_path`: strings pass the guard
`uri != "" or uri is not None` (true for every string, the empty one
included, since a string is never `None`); non-strings are rejected. -/
def setUriPath : PyVal → UriResult
  | .str s =>
    if (PyVal.str s).neEmptyStr || (PyVal.str s).isNotNone then .assigned s
    else .uriValueError ("Unable to assign " ++ s)
  | _ => .uriValueError "Unable to set URI path because value is not a string"

/-- Remote listing of the end-to-end counterexample: one payload object
under the batch prefix. -/
def cexListing : List String := ["b/data.parquet/part-0001"]

/-- Local filesystem after a truncated write: the one expected file
exists with size 0. -/
def cexFS : FS := [("tmp/data.parquet/part-0001", 0)]

/-- An existence probe for which the parent directory `b/a` exists but
the batch prefix `b/a/x.parquet` itself does not. -/
def parentOnlyExists : String → Bool := fun p => decide (p = "s3://b/a")

theorem createDownloadLists_spec (listing : List String) :
    createDownloadLists listing
      = (listing.filter (fun f => !startsWithUnderscore (basename f)),
         (listing.filter (fun f => !startsWithUnderscore (basename f))).map basename) := by
  induction listing with
  | nil => rfl
  | cons f rest ih =>
    by_cases h : startsWithUnderscore (basename f)
    · simp [createDownloadLists, h, ih, List.filter_cons]
    · simp [createDownloadLists, h, ih, List.filter_cons]

theorem successfullyDownloaded_iff (fs : FS) (d : String) (files : List String) :
    successfullyDownloaded fs d files = true ↔
      ∀ f ∈ files, ∃ sz, fsSize fs (joinPath d f) = Option.some sz ∧ 1 < sz := by
  induction files with
  | nil => simp [successfullyDownloaded]
  | cons f rest ih =>
    cases h : fsSize fs (joinPath d f) with
    | none =>
      simp only [successfullyDownloaded, h]
      constructor
      · intro hfalse; exact absurd hfalse (by simp)
      · intro hall
        rcases hall f (by simp) with ⟨sz, hsz, _⟩
        simp [h] at hsz
    | some sz =>
      by_cases hsz : sz ≤ 1
      · simp only [successfullyDownloaded, h, if_pos hsz]
        constructor
        · intro hfalse; exact absurd hfalse (by simp)
        · intro hall
          rcases hall f (by simp) with ⟨sz', hsz', hlt⟩
          rw [h] at hsz'
          cases hsz'
          omega
      · simp only [successfullyDownloaded, h, if_neg hsz, List.forall_mem_cons, ih]
        constructor
        · intro hrest
          exact ⟨⟨sz, rfl, by omega⟩, hrest⟩
        · intro hand
          exact hand.2

theorem createDownload_eq_loop (s3Ex : String → Bool) (bucket uri : String)
    (transferOk : Nat → Bool) (hconn : testConnection s3Ex bucket uri = true) :
    createDownloadObjAndDownloadFile s3Ex bucket uri transferOk
      = retryLoop transferOk (joinPath bucket uri) 3 0 := by
  simp [createDownloadObjAndDownloadFile, hconn]

theorem retryLoop_succ_true (transferOk : Nat → Bool) (fp : String) (tries k : Nat)
    (h : transferOk k = true) :
    retryLoop transferOk fp (tries + 1) k = (.ok, [.construct, .transfer]) := by
  simp [retryLoop, h]

theorem retryLoop_succ_false_false (transferOk : Nat → Bool) (fp : String) (tries k : Nat)
    (h0 : transferOk k = false) (h1 : transferOk (k + 1) = false) :
    retryLoop transferOk fp (tries + 1) k
      = (.escapedDownloadError, [.construct, .transfer, .transfer]) := by
  simp [retryLoop, h0, h1]

theorem retryLoop_succ_false_true (transferOk : Nat → Bool) (fp : String) (tries k : Nat)
    (h0 : transferOk k = false) (h1 : transferOk (k + 1) = true) :
    retryLoop transferOk fp (tries + 1) k
      = ((retryLoop transferOk fp tries (k + 2)).1,
         .construct :: .transfer :: .transfer :: (retryLoop transferOk fp tries (k + 2)).2) := by
  simp [retryLoop, h0, h1]

/-- Claim C4: `successfully_downloaded` is true iff every expected file
exists at `destinationPath/name` with size strictly greater than 1 byte,
and any single expected file that is missing or has size at most 1 byte
makes it false. -/
theorem successfully_downloaded_iff_complete (fs : FS) (dest : String) (files : List String) :
    (successfullyDownloaded fs dest files = true ↔
      ∀ f ∈ files, ∃ sz, fsSize fs (joinPath dest f) = Option.some sz ∧ 1 < sz)
  ∧ (∀ f ∈ files,
      (fsSize fs (joinPath dest f) = Option.none ∨
        ∃ sz, fsSize fs (joinPath dest f) = Option.some sz ∧ sz ≤ 1) →
      successfullyDownloaded fs dest files = false) := by
  refine ⟨successfullyDownloaded_iff fs dest files, ?_⟩
  intro f hf hbad
  cases hres : successfullyDownloaded fs dest files with
  | false => rfl
  | true =>
    rcases (successfullyDownloaded_iff fs dest files).mp hres f hf with ⟨sz, hsz, hlt⟩
    rcases hbad with hnone | ⟨sz', hsz', hle⟩
    · rw [hnone] at hsz
      cases hsz
    · rw [hsz'] at hsz
      injection hsz with hsz
      omega

/-- Claim C6: an object whose base name starts with `_` is never put on
the work queue nor into the expected-file list (hence never written
locally and never validated), while every non-marker listed object is
enqueued exactly once and contributes exactly one expected name, its base
name. -/
theorem marker_filtering_sound (listing : List String) :
    (createDownloadLists listing).1
        = listing.filter (fun f => !startsWithUnderscore (basename f))
  ∧ (createDownloadLists listing).2 = ((createDownloadLists listing).1).map basename
  ∧ (∀ f, startsWithUnderscore (basename f) = true →
        f ∉ (createDownloadLists listing).1 ∧ basename f ∉ (createDownloadLists listing).2)
  ∧ (listing.Nodup → ∀ f ∈ listing, startsWithUnderscore (basename f) = false →
        (createDownloadLists listing).1.count f = 1 ∧ f ∈ (createDownloadLists listing).1) := by
  have hs := createDownloadLists_spec listing
  refine ⟨by rw [hs], by rw [hs], ?_, ?_⟩
  · intro f hmark
    rw [hs]
    constructor
    · intro hmem
      rcases List.mem_filter.mp hmem with ⟨_, hpred⟩
      simp [hmark] at hpred
    · intro hmem
      rcases List.mem_map.mp hmem with ⟨g, hg, heq⟩
      rcases List.mem_filter.mp hg with ⟨_, hpred⟩
      rw [heq, hmark] at hpred
      simp at hpred
  · intro hnd f hf hmark
    rw [hs]
    have hmem : f ∈ listing.filter (fun f => !startsWithUnderscore (basename f)) :=
      List.mem_filter.mpr ⟨hf, by simp [hmark]⟩
    exact ⟨List.count_eq_one_of_mem (hnd.filter _) hmem, hmem⟩

/-- Claim C9: a listing with only marker objects yields an empty queue
and an empty expected-file list, `successfully_downloaded` is vacuously
true, and `download_and_convert_to_json` reports success after the one
attempt without any file to transfer. -/
theorem empty_batch_reports_success (s3Ex : String → Bool) (bucket uri parentDir : String)
    (transferOk : Nat → Bool) (listing : List String) (fs : FS)
    (hconn : testConnection s3Ex bucket uri = true)
    (hfirst : transferOk 0 = true)
    (hmarkers : ∀ f ∈ listing, startsWithUnderscore (basename f) = true) :
    (createDownloadLists listing).1 = []
  ∧ (createDownloadLists listing).2 = []
  ∧ successfullyDownloaded fs (destinationPath parentDir (joinPath bucket uri))
      (createDownloadLists listing).2 = true
  ∧ downloadAndConvertToJson s3Ex bucket uri parentDir transferOk listing fs
      = (.success, [.construct, .transfer]) := by
  have hfil : listing.filter (fun f => !startsWithUnderscore (basename f)) = [] :=
    List.filter_eq_nil_iff.mpr (fun f hf => by simp [hmarkers f hf])
  have h1 : (createDownloadLists listing).1 = [] := by
    rw [createDownloadLists_spec, hfil]
  have h2 : (createDownloadLists listing).2 = [] := by
    rw [createDownloadLists_spec, hfil]
    rfl
  have h3 : successfullyDownloaded fs (destinationPath parentDir (joinPath bucket uri))
      (createDownloadLists listing).2 = true := by
    rw [h2]
    rfl
  refine ⟨h1, h2, h3, ?_⟩
  unfold downloadAndConvertToJson
  rw [createDownload_eq_loop s3Ex bucket uri transferOk hconn,
      retryLoop_succ_true transferOk (joinPath bucket uri) 2 0 hfirst]
  simp [h3]

theorem empty_batch_reports_success_witness :
    downloadAndConvertToJson (fun _ => true) "b" "data.parquet" "tmp" (fun _ => true)
      ["b/data.parquet/_SUCCESS"] [] = (.success, [.construct, .transfer]) :=
  (empty_batch_reports_success (fun _ => true) "b" "data.parquet" "tmp" (fun _ => true)
    ["b/data.parquet/_SUCCESS"] [] rfl rfl (by decide)).2.2.2

/-- Claim C1 (counterexample): transfers complete without `DownloadError`
and one expected file lands at size 0; `download_and_convert_to_json`
raises `S3ConnectionError` after the single attempt (one construct, one
transfer) instead of re-running the attempt and succeeding on attempt 2. -/
theorem validation_failure_not_retried_cex :
    (createDownloadLists cexListing).2 = ["part-0001"]
  ∧ fsSize cexFS "tmp/data.parquet/part-0001" = Option.some 0
  ∧ downloadAndConvertToJson (fun _ => true) "b" "data.parquet" "tmp" (fun _ => true)
      cexListing cexFS
      = (.s3Error validationFailureMsg, [.construct, .transfer]) := by
  decide

/-- Claim C1 (amended): a validation failure is never retried — whenever
the connection check passes and the first transfer call returns without
`DownloadError` but validation reports failure, the call raises
`S3ConnectionError` after exactly one attempt (one construction, one
transfer), with no re-run of the attempt. -/
theorem validation_failure_raises_without_retry (s3Ex : String → Bool)
    (bucket uri parentDir : String) (transferOk : Nat → Bool)
    (listing : List String) (fs : FS)
    (hconn : testConnection s3Ex bucket uri = true)
    (hfirst : transferOk 0 = true)
    (hval : successfullyDownloaded fs (destinationPath parentDir (joinPath bucket uri))
        (createDownloadLists listing).2 = false) :
    downloadAndConvertToJson s3Ex bucket uri parentDir transferOk listing fs
      = (.s3Error validationFailureMsg, [.construct, .transfer]) := by
  unfold downloadAndConvertToJson
  rw [createDownload_eq_loop s3Ex bucket uri transferOk hconn,
      retryLoop_succ_true transferOk (joinPath bucket uri) 2 0 hfirst]
  simp [hval]

theorem validation_failure_raises_without_retry_witness :
    downloadAndConvertToJson (fun _ => true) "b" "data.parquet" "tmp2" (fun _ => true)
      cexListing [("tmp2/data.parquet/part-0001", 1)]
      = (.s3Error validationFailureMsg, [.construct, .transfer]) :=
  validation_failure_raises_without_retry (fun _ => true) "b" "data.parquet" "tmp2"
    (fun _ => true) cexListing [("tmp2/data.parquet/part-0001", 1)] rfl rfl (by decide)

/-- Claim C2: when the prefix is reachable and every call to
`download_files_from_s3` raises `DownloadError`, the orchestrator does
not make 3 attempts and raise the terminal error — the retry performed
inside the `except` handler is unprotected, so after one construction and
two transfer calls the `DownloadError` escapes to the caller. -/
theorem persistent_transfer_failure_escapes :
    createDownloadObjAndDownloadFile (fun _ => true) "b" "data.parquet" (fun _ => false)
      = (.escapedDownloadError, [.construct, .transfer, .transfer])
  ∧ ((createDownloadObjAndDownloadFile (fun _ => true) "b" "data.parquet"
      (fun _ => false)).2.count .transfer = 2) := by
  decide

/-- Claim C3: when the first transfer call of an attempt raises
`DownloadError`, the re-run performed by the `except` handler is a second
transfer call with no intervening construction — the prefix is not
re-listed and the queue not re-populated before the workers are re-run. -/
theorem retry_skips_relisting (s3Ex : String → Bool) (bucket uri : String)
    (transferOk : Nat → Bool)
    (hconn : testConnection s3Ex bucket uri = true)
    (hfail : transferOk 0 = false) :
    ((createDownloadObjAndDownloadFile s3Ex bucket uri transferOk).2).take 3
      = [.construct, .transfer, .transfer] := by
  rw [createDownload_eq_loop s3Ex bucket uri transferOk hconn]
  cases h1 : transferOk 1 with
  | false =>
    rw [retryLoop_succ_false_false transferOk (joinPath bucket uri) 2 0 hfail h1]
    rfl
  | true =>
    rw [retryLoop_succ_false_true transferOk (joinPath bucket uri) 2 0 hfail h1]
    rfl

theorem retry_skips_relisting_witness :
    ((createDownloadObjAndDownloadFile (fun _ => true) "b" "data.parquet"
      (fun k => decide (k ≠ 0))).2).take 3 = [.construct, .transfer, .transfer] :=
  retry_skips_relisting (fun _ => true) "b" "data.parquet" (fun k => decide (k ≠ 0))
    rfl rfl

/-- Claim C5 (counterexample): with uri `a/x.parquet` under bucket `b`,
the existence probe actually issued is for the parent `s3://b/a`; when
that parent exists but the batch prefix `s3://b/a/x.parquet` itself does
not, the orchestrator does not fail immediately — it constructs a
download object and consumes an attempt. -/
theorem existence_check_ignores_leaf_cex :
    parentOnlyExists ("s3://" ++ joinPath "b" "a/x.parquet") = false
  ∧ testConnection parentOnlyExists "b" "a/x.parquet" = true
  ∧ createDownloadObjAndDownloadFile parentOnlyExists "b" "a/x.parquet" (fun _ => true)
      = (.ok, [.construct, .transfer]) := by
  decide

/-- Claim C5 (amended): the existence check probes
`s3://` + `bucket` joined with the parent directory of the uri; when that
probe fails, the call fails immediately with an `S3ConnectionError`-kind
error, with zero attempts consumed and no download object constructed
(an empty event trace). -/
theorem missing_parent_fails_immediately (s3Ex : String → Bool) (bucket uri : String)
    (transferOk : Nat → Bool)
    (h : s3Ex ("s3://" ++ joinPath bucket (dirname uri)) = false) :
    createDownloadObjAndDownloadFile s3Ex bucket uri transferOk
      = (.noConnection ("Unable to download " ++ joinPath bucket uri ++
          " because connection to S3 is not valid"), []) := by
  simp [createDownloadObjAndDownloadFile, testConnection, h]

theorem missing_parent_fails_immediately_witness :
    createDownloadObjAndDownloadFile (fun _ => false) "b" "a/x.parquet" (fun _ => true)
      = (.noConnection ("Unable to download " ++ joinPath "b" "a/x.parquet" ++
          " because connection to S3 is not valid"), []) :=
  missing_parent_fails_immediately (fun _ => false) "b" "a/x.parquet" (fun _ => true) rfl

/-- Claim C7: a worker that hits a connection-level failure while copying
one object stops draining — the items after the failing one are never
processed, only the files for the items before it are written — and the
worker's run ends by signalling `DownloadError` (`aborted`). -/
theorem worker_aborts_on_connection_failure (copyOk : String → Bool) (destPath : String)
    (pre : List String) (p : String) (rest : List String)
    (hpre : ∀ q ∈ pre, copyOk q = true) (hp : copyOk p = false) :
    downloadSingleFile copyOk destPath (pre ++ p :: rest)
      = .aborted (pre.map (fun q => joinPath destPath (basename q))) := by
  induction pre with
  | nil => simp [downloadSingleFile, hp]
  | cons q pre ih =>
    have hq : copyOk q = true := hpre q (by simp)
    have hrest : ∀ x ∈ pre, copyOk x = true := fun x hx => hpre x (by simp [hx])
    simp [downloadSingleFile, hq, ih hrest]

theorem worker_aborts_on_connection_failure_witness :
    downloadSingleFile (fun q => decide (q ≠ "p/bad")) "tmp/d" (["p/a"] ++ "p/bad" :: ["p/c"])
      = .aborted (["p/a"].map (fun q => joinPath "tmp/d" (basename q))) :=
  worker_aborts_on_connection_failure (fun q => decide (q ≠ "p/bad")) "tmp/d"
    ["p/a"] "p/bad" ["p/c"] (by decide) (by decide)

/-- Claim C8: with 2 workers draining a 1-item queue there is an
interleaving — both workers pass the `queue.empty()` check before either
calls `queue.get()` — reaching a state where the item was delivered to
worker 0 exactly once, worker 0 exited the loop, the queue is empty, and
worker 1 is committed to `queue.get()` with no step available: it blocks
indefinitely and never terminates. -/
theorem queue_race_blocks_worker :
    Relation.ReflTransGen PoolStep poolInit poolStuck
  ∧ poolStuck.got 0 = ["part-0001"]
  ∧ poolStuck.got 1 = []
  ∧ poolStuck.pc 0 = .finished
  ∧ poolStuck.pc 1 = .atGet
  ∧ poolStuck.queue = []
  ∧ (∀ t : PoolState 2, ¬ PoolStep poolStuck t) := by
  have s01 : PoolStep poolInit poolS1 :=
    .checkNonempty poolInit poolS1 0 rfl (by simp [poolInit]) rfl rfl rfl
  have s12 : PoolStep poolS1 poolS2 :=
    .checkNonempty poolS1 poolS2 1 (by decide) (by simp [poolS1, poolInit]) rfl rfl rfl
  have s23 : PoolStep poolS2 poolS3 :=
    .getItem poolS2 poolS3 0 "part-0001" [] (by decide) rfl rfl rfl rfl
  have s3s : PoolStep poolS3 poolStuck :=
    .checkEmpty poolS3 poolStuck 0 (by decide) rfl rfl rfl rfl
  refine ⟨Relation.ReflTransGen.head s01 (Relation.ReflTransGen.head s12
    (Relation.ReflTransGen.head s23 (Relation.ReflTransGen.single s3s))),
    by decide, by decide, by decide, by decide, rfl, ?_⟩
  intro t h
  cases h with
  | checkNonempty i hpc hne htq htpc htg =>
    fin_cases i <;> exact absurd hpc (by decide)
  | checkEmpty i hpc hnil htq htpc htg =>
    fin_cases i <;> exact absurd hpc (by decide)
  | getItem i x rest hpcg hq htq htpc htg =>
    simp [poolStuck, poolS3] at hq

/-- Claim C10: with `S3_SECRET` unset, `_set_s3_secret_key` raises
`ValueError` for every string argument, and its environment-storing
branch is reachable exactly for non-string arguments (the `isinstance`
guard is inverted relative to the access-key setter); `_set_uri_path`
accepts every string, the empty string included, since its guard
`uri != "" or uri is not None` is true for every string. -/
theorem secret_key_inverted_and_uri_accepts_all :
    (∀ s : String, setS3SecretKey Option.none (.str s)
        = .valueError "Unable to set S3 secret_key value because value is not a string")
  ∧ (∀ v : PyVal, v.isStr = false → setS3SecretKey Option.none v = .stored v)
  ∧ (∀ v : PyVal, (∃ u, setS3SecretKey Option.none v = .stored u) → v.isStr = false)
  ∧ (∀ s : String, setUriPath (.str s) = .assigned s) := by
  refine ⟨?_, ?_, ?_, ?_⟩
  · intro s
    rfl
  · intro v hv
    cases v with
    | str s => simp [PyVal.isStr] at hv
    | int n => rfl
    | pyNone => rfl
  · intro v hex
    cases v with
    | str s =>
      rcases hex with ⟨u, hu⟩
      simp [setS3SecretKey, PyVal.isStr] at hu
    | int n => rfl
    | pyNone => rfl
  · intro s
    by_cases h : s = ""
    · subst h
      rfl
    · simp [setUriPath, PyVal.neEmptyStr, PyVal.isNotNone]
